import Mathlib

/-!
Verification development for DynMHS (Dynamic Multi-Homing Setup),
a shallow embedding of `src/dynmhs.cc` together with theorems about
its event handlers, sequencing, synchronous-acknowledgement wait,
request-queue drain and configuration parsing.

Modelling conventions:
* Machine integers (`uint32_t`, netlink header fields) are `Nat`,
  with an explicit `% 2 ^ 32` where the source relies on 32-bit wrap.
* Raw attribute payload bytes are `List Nat` (each entry one byte);
  a `uint32_t` stored by `memcpy` is its little-endian 4-byte image.
* `assure(...)`, which prints a message and calls `abort()`, is
  modelled by returning `none` from the enclosing handler.
* OS calls (`if_indextoname`, `poll`, `recvmsg`, `sendmsg`) are
  modelled as explicit environment parameters.
-/

namespace DynMHS

/-! Netlink protocol constants from `linux/netlink.h`, `linux/rtnetlink.h`
and `linux/fib_rules.h`, as used by `dynmhs.cc`. -/

def NLMSG_ERROR : Nat := 2
def NLMSG_DONE : Nat := 3

def RTM_NEWLINK : Nat := 16
def RTM_DELLINK : Nat := 17
def RTM_GETLINK : Nat := 18
def RTM_NEWADDR : Nat := 20
def RTM_DELADDR : Nat := 21
def RTM_GETADDR : Nat := 22
def RTM_NEWROUTE : Nat := 24
def RTM_DELROUTE : Nat := 25
def RTM_GETROUTE : Nat := 26
def RTM_NEWRULE : Nat := 32
def RTM_DELRULE : Nat := 33
def RTM_GETRULE : Nat := 34

def NLM_F_REQUEST : Nat := 1
def NLM_F_ACK : Nat := 4
def NLM_F_EXCL : Nat := 512
def NLM_F_CREATE : Nat := 1024
def NLM_F_DUMP : Nat := 768

def AF_UNSPEC : Nat := 0
def AF_INET : Nat := 2
def AF_INET6 : Nat := 10

def RT_TABLE_UNSPEC : Nat := 0
def RT_TABLE_MAIN : Nat := 254

def FR_ACT_TO_TBL : Nat := 1
def FRA_SRC : Nat := 2
def FRA_PRIORITY : Nat := 6
def FRA_TABLE : Nat := 15

def IFA_ADDRESS : Nat := 1

def RTA_DST : Nat := 1
def RTA_OIF : Nat := 4
def RTA_GATEWAY : Nat := 5
def RTA_METRICS : Nat := 8
def RTA_TABLE : Nat := 15

/-- Header length prefix: `NLMSG_LENGTH(len)` adds the aligned
`nlmsghdr` size (16 bytes on Linux). -/
def NLMSG_LENGTH (len : Nat) : Nat := len + 16

/-- Size of `struct nlmsgerr` (an `int` error field plus the embedded
16-byte `nlmsghdr`). -/
def sizeof_nlmsgerr : Nat := 20

/-- Timeout constant `NETLINK_TIMEOUT` (milliseconds). -/
def NETLINK_TIMEOUT : Nat := 5000

/-! Inbound message headers, as seen by `receiveNetlinkMessages`. -/

/-- The part of an inbound netlink message that the acknowledgement
correlator inspects: its type, sequence number, total length, and (for
`NLMSG_ERROR` messages) the `nlmsgerr.error` payload field. -/
structure InboundHeader where
  nlmsg_type : Nat
  nlmsg_seq : Nat
  nlmsg_len : Nat
  errorCode : Int
deriving DecidableEq, Repr

/-- State of the single-slot acknowledgement correlator, the globals
`WaitingForAcknowlegement`, `AwaitedSeqNumber` and `LastError` of
`dynmhs.cc`. -/
structure AckState where
  WaitingForAcknowlegement : Bool
  AwaitedSeqNumber : Nat
  LastError : Int
deriving DecidableEq, Repr

/-- Acknowledgement correlation performed for each inbound message at
the top of the reception loop of `receiveNetlinkMessages`
(`dynmhs.cc` lines 575-590): if the codec is waiting and the message
bears the awaited sequence number, record the error code (the
`nlmsgerr.error` field when the message is an `NLMSG_ERROR` of
sufficient length, `0` otherwise) and clear the waiting flag. -/
def processAckCheck (st : AckState) (msg : InboundHeader) : AckState :=
  if st.WaitingForAcknowlegement = true ∧ msg.nlmsg_seq = st.AwaitedSeqNumber then
    if msg.nlmsg_type = NLMSG_ERROR ∧ NLMSG_LENGTH sizeof_nlmsgerr ≤ msg.nlmsg_len then
      { st with LastError := msg.errorCode, WaitingForAcknowlegement := false }
    else
      { st with LastError := 0, WaitingForAcknowlegement := false }
  else
    st

/-- Effect on the acknowledgement correlator of one batch of inbound
messages processed in arrival order by `receiveNetlinkMessages`. -/
def receiveAckSweep (st : AckState) (msgs : List InboundHeader) : AckState :=
  msgs.foldl processAckCheck st

/-! The synchronous wait loop of `waitForAcknowledgement`
(`dynmhs.cc` lines 646-673). -/

/-- Environment of one run of the wait loop of `waitForAcknowledgement`:
at iteration `i`, `elapsedAt i` is the elapsed time in milliseconds
measured by `steady_clock`, and `deliveredAt i` the inbound messages
read by `receiveNetlinkMessages` after `poll` (empty when `poll`
reported no events). -/
structure WaitEnv where
  elapsedAt : Nat → Nat
  deliveredAt : Nat → List InboundHeader

/-- Poll timeout computed at the top of each iteration of the wait loop:
`int ms = timeout - elapsed; if (ms < 1) ms = 0;`. -/
def waitIterMs (timeout elapsed : Nat) : Nat :=
  if timeout ≤ elapsed then 0 else timeout - elapsed

/-- Fuel-bounded unfolding of the loop
`while(WaitingForAcknowlegement) { ...; poll(...); receive...; }` of
`waitForAcknowledgement`. `i` is the iteration index into the
environment. The result is `some r` when the loop exits and the
function returns `r = (WaitingForAcknowlegement == false)`, and `none`
when the loop is still running after the given number of iterations.
The computed poll timeout `waitIterMs` bounds only how long a single
`poll` blocks; nothing in the loop body consults it to exit. -/
def waitForAckAux (env : WaitEnv) (timeout : Nat) :
    Nat → Nat → AckState → Option Bool
  | 0, _, _ => none
  | fuel + 1, i, st =>
    if st.WaitingForAcknowlegement = true then
      let _ms := waitIterMs timeout (env.elapsedAt i)
      waitForAckAux env timeout fuel (i + 1)
        (receiveAckSweep st (env.deliveredAt i))
    else
      some (st.WaitingForAcknowlegement = false)

/-- Entry into the wait: `waitForAcknowledgement` first sets
`WaitingForAcknowlegement = true` and `AwaitedSeqNumber = seqNumber`,
then runs the loop. -/
def waitForAcknowledgement (env : WaitEnv) (timeout seqNumber : Nat)
    (lastError : Int) (fuel : Nat) : Option Bool :=
  waitForAckAux env timeout fuel 0 ⟨true, seqNumber, lastError⟩

/-! Core data model: operating mode, interface mapping, attribute lists. -/

/-- The three-state operating mode `DynMHSOperatingMode`. -/
inductive DynMHSOperatingMode where
  | Undefined : DynMHSOperatingMode
  | Reset : DynMHSOperatingMode
  | Operational : DynMHSOperatingMode
deriving DecidableEq, Repr

/-- Little-endian 4-byte image of a `uint32_t` stored by `memcpy`. -/
def u32le (v : Nat) : List Nat :=
  [v % 256, v / 256 % 256, v / 65536 % 256, v / 16777216 % 256]

/-- Reading 4 bytes back as a `uint32_t` (`*(unsigned int*)RTA_DATA(rta)`).
Fewer than 4 bytes means the source reads adjacent memory; modelled as
zero padding. -/
def le32 (bytes : List Nat) : Nat :=
  (bytes.take 4).foldr (fun b acc => b % 256 + 256 * acc) 0

/-- A routing attribute (`struct rtattr`): type tag plus payload bytes. -/
structure RAttr where
  rta_type : Nat
  rta_data : List Nat
deriving DecidableEq, Repr

/-- Payload of the last attribute of type `ty`, if present. The
attribute-walking loops of `dynmhs.cc` overwrite their pointer on each
matching attribute, so the last occurrence wins. -/
def lastAttrData (attrs : List RAttr) (ty : Nat) : Option (List Nat) :=
  match attrs with
  | [] => none
  | rta :: rest =>
    match lastAttrData rest ty with
    | some d => some d
    | none => if rta.rta_type = ty then some rta.rta_data else none

/-- Overwrite the payload of the last attribute of type `ty` (the write
`*tablePtr = customTable` through the pointer obtained by the attribute
walk). A list with no such attribute is returned unchanged. -/
def overwriteLast (attrs : List RAttr) (ty : Nat) (data : List Nat) : List RAttr :=
  match attrs with
  | [] => []
  | rta :: rest =>
    match lastAttrData rest ty with
    | some _ => rta :: overwriteLast rest ty data
    | none =>
      if rta.rta_type = ty then { rta with rta_data := data } :: rest
      else rta :: rest

/-- Lookup in the interface mapping, `InterfaceMap.find(name)` on the
`std::map<std::string, unsigned int>`. -/
def mapFind? (m : List (String × Nat)) (k : String) : Option Nat :=
  match m.find? (fun e => e.fst == k) with
  | some e => some e.snd
  | none => none

/-- Membership test for a key of the interface mapping. -/
def mapContains (m : List (String × Nat)) (k : String) : Bool :=
  (mapFind? m k).isSome

/-- Insertion into the interface mapping, `InterfaceMap.insert(...)`:
`std::map::insert` does not overwrite an existing key. -/
def mapInsert (m : List (String × Nat)) (k : String) (v : Nat) : List (String × Nat) :=
  if mapContains m k then m else m ++ [(k, v)]

/-- Test whether some entry of the mapping has custom table `v`; the
source iterates `InterfaceMap` and breaks at the first match, so only
existence is observable. -/
def mapHasValue (m : List (String × Nat)) (v : Nat) : Bool :=
  m.any (fun e => e.snd == v)

/-! Outbound messages and the request queue. -/

/-- A rule message: `nlmsghdr` plus `fib_rule_hdr` plus attributes.
Used both for inbound `RTM_NEWRULE`/`RTM_DELRULE` events and for the
rule requests built by `handleAddressEvent` and `handleRuleEvent`. -/
structure RuleMsg where
  nlmsg_type : Nat
  nlmsg_flags : Nat
  nlmsg_seq : Nat
  nlmsg_pid : Nat
  frh_family : Nat
  frh_action : Nat
  frh_table : Nat
  frh_src_len : Nat
  attrs : List RAttr
deriving DecidableEq, Repr

/-- A route message: `nlmsghdr` plus `rtmsg` plus attributes.
`rtm_table` is the legacy 8-bit table field of the `rtmsg` header. -/
structure RouteMsg where
  nlmsg_type : Nat
  nlmsg_flags : Nat
  nlmsg_seq : Nat
  nlmsg_pid : Nat
  rtm_family : Nat
  rtm_dst_len : Nat
  rtm_table : Nat
  rtm_scope : Nat
  attrs : List RAttr
deriving DecidableEq, Repr

/-- An address message: `nlmsghdr` plus `ifaddrmsg` plus attributes. -/
structure AddrMsg where
  nlmsg_type : Nat
  nlmsg_flags : Nat
  nlmsg_seq : Nat
  ifa_family : Nat
  ifa_prefixlen : Nat
  ifa_index : Nat
  attrs : List RAttr
deriving DecidableEq, Repr

/-- A dump request built by `queueSimpleNetlinkRequest`: `nlmsghdr`
plus `rtgenmsg`. -/
structure DumpRequest where
  nlmsg_type : Nat
  nlmsg_flags : Nat
  nlmsg_seq : Nat
  nlmsg_pid : Nat
  rtgen_family : Nat
deriving DecidableEq, Repr

/-- An owned serialized message in the request queue. -/
inductive OutMessage where
  | ruleMessage : RuleMsg → OutMessage
  | routeMessage : RouteMsg → OutMessage
  | dumpRequest : DumpRequest → OutMessage
deriving DecidableEq, Repr

/-- Sequence number carried in the `nlmsghdr` of a queued message. -/
def OutMessage.seq : OutMessage → Nat
  | .ruleMessage m => m.nlmsg_seq
  | .routeMessage m => m.nlmsg_seq
  | .dumpRequest m => m.nlmsg_seq

/-- Process-wide mutable state of `dynmhs.cc`: `Mode`, `SeqNumber`,
`InterfaceMap` and `RequestQueue` (FIFO, head = front). -/
structure DynState where
  Mode : DynMHSOperatingMode
  SeqNumber : Nat
  InterfaceMap : List (String × Nat)
  RequestQueue : List OutMessage
deriving DecidableEq, Repr

/-- Pre-increment of the 32-bit counter: `++SeqNumber`. -/
def nextSeq (s : Nat) : Nat := (s + 1) % 4294967296

/-- State at program start: `Mode = Undefined`, `SeqNumber = 1000000000`,
empty queue, and the mapping produced by configuration parsing. -/
def initialState (ifmap : List (String × Nat)) : DynState :=
  ⟨DynMHSOperatingMode.Undefined, 1000000000, ifmap, []⟩

/-- Flags `NLM_F_REQUEST | NLM_F_CREATE | NLM_F_EXCL | NLM_F_ACK` used on
creation requests. -/
def reqCreateFlags : Nat := NLM_F_REQUEST ||| NLM_F_CREATE ||| NLM_F_EXCL ||| NLM_F_ACK

/-- Flags `NLM_F_REQUEST | NLM_F_ACK` used on deletion requests. -/
def reqAckFlags : Nat := NLM_F_REQUEST ||| NLM_F_ACK

/-! Address events, `handleAddressEvent` (`dynmhs.cc` lines 154-279). -/

/-- Result of the attribute walk of `handleAddressEvent`: `addressPtr`
points at the payload of the last `IFA_ADDRESS` attribute seen (for a
recognised family), and `isLinkLocal` is set, never reset, when an IPv6
`IFA_ADDRESS` in `fe80::/10` is seen. -/
structure AddrParse where
  addressPtr : Option (List Nat)
  isLinkLocal : Bool
deriving DecidableEq, Repr

/-- IPv6 link-local test of `boost::asio::ip::address_v6::is_link_local`:
the address lies in `fe80::/10`. -/
def ipv6IsLinkLocal (bytes : List Nat) : Bool :=
  match bytes with
  | b0 :: b1 :: _ => b0 % 256 == 254 && (b1 % 256) &&& 192 == 128
  | _ => false

/-- One step of the `IFA_ADDRESS` attribute walk of `handleAddressEvent`. -/
def parseAddrStep (family : Nat) (st : AddrParse) (rta : RAttr) : AddrParse :=
  if rta.rta_type = IFA_ADDRESS then
    if family = AF_INET then { st with addressPtr := some rta.rta_data }
    else if family = AF_INET6 then
      { addressPtr := some rta.rta_data,
        isLinkLocal := st.isLinkLocal || ipv6IsLinkLocal rta.rta_data }
    else st
  else st

/-- Attribute walk of `handleAddressEvent` over the whole list. -/
def parseAddrAttrs (family : Nat) (attrs : List RAttr) : AddrParse :=
  attrs.foldl (parseAddrStep family) ⟨none, false⟩

/-- Address-change handler `handleAddressEvent`. `ifName` is the result
of the OS call `if_indextoname` (the string `UNKNOWN` when that lookup
fails). In `Operational` mode, for a non-link-local address on an
interface mapped to custom table `customTable`, one rule request is
built (`RTM_NEWRULE` with request-create-exclusive-ack flags for
`RTM_NEWADDR`, otherwise `RTM_DELRULE` with request-ack flags) carrying
`FRA_SRC` = the address with full prefix, `FRA_PRIORITY` and
`FRA_TABLE` = `customTable`, and pushed on the request queue. -/
def handleAddressEvent (ifName : String) (st : DynState) (msg : AddrMsg) : DynState :=
  let p := parseAddrAttrs msg.ifa_family msg.attrs
  match p.addressPtr with
  | none => st
  | some addr =>
    if st.Mode = DynMHSOperatingMode.Operational ∧ p.isLinkLocal = false then
      match mapFind? st.InterfaceMap ifName with
      | none => st
      | some customTable =>
        let seq2 := nextSeq st.SeqNumber
        let request : RuleMsg :=
          { nlmsg_type := if msg.nlmsg_type = RTM_NEWADDR then RTM_NEWRULE else RTM_DELRULE,
            nlmsg_flags := if msg.nlmsg_type = RTM_NEWADDR then reqCreateFlags else reqAckFlags,
            nlmsg_seq := seq2,
            nlmsg_pid := 0,
            frh_family := msg.ifa_family,
            frh_action := FR_ACT_TO_TBL,
            frh_table := RT_TABLE_UNSPEC,
            frh_src_len := if msg.ifa_family = AF_INET then 32 else 128,
            attrs := [⟨FRA_SRC, if msg.ifa_family = AF_INET then addr.take 4 else addr.take 16⟩,
                      ⟨FRA_PRIORITY, u32le customTable⟩,
                      ⟨FRA_TABLE, u32le customTable⟩] }
        { st with SeqNumber := seq2,
                  RequestQueue := st.RequestQueue ++ [OutMessage.ruleMessage request] }
    else st

/-! Route events, `handleRouteEvent` (`dynmhs.cc` lines 283-430). -/

/-- Output-interface index from the last `RTA_OIF` attribute. -/
def routeOifIndex (attrs : List RAttr) : Option Nat :=
  (lastAttrData attrs RTA_OIF).map le32

/-- Output-interface name as computed by the attribute walk of
`handleRouteEvent`: resolved through `if_indextoname` (`resolveIf`, with
fallback string `UNKNOWN`) for a non-negative index. Without an
`RTA_OIF` attribute, or with a negative index, the source leaves the
local `oifName` pointer uninitialised and a later lookup through it is
undefined behaviour; modelled as `none`, which matches no interface. -/
def routeOifName (resolveIf : Nat → Option String) (attrs : List RAttr) : Option String :=
  match routeOifIndex attrs with
  | some i => if i < 2147483648 then some ((resolveIf i).getD "UNKNOWN") else none
  | none => none

/-- Route-change handler `handleRouteEvent`. The table identifier is
read from the last `RTA_TABLE` attribute only; `assure(tablePtr !=
nullptr)` aborts the process (`none`) when the attribute is absent. In
`Operational` mode a main-table route on a mapped output interface is
cloned: the table attribute is overwritten to the custom table, the
type kept, the flags set by type, and a fresh sequence number assigned.
In `Reset` mode a route in any custom table yields an `RTM_DELROUTE`
copy. Otherwise no mutation is enqueued. -/
def handleRouteEvent (resolveIf : Nat → Option String) (st : DynState) (msg : RouteMsg) :
    Option DynState :=
  match lastAttrData msg.attrs RTA_TABLE with
  | none => none
  | some tb =>
    let table := le32 tb
    let update? : Option (Nat × List RAttr) :=
      if st.Mode = DynMHSOperatingMode.Operational ∧ table = RT_TABLE_MAIN ∧
          (msg.nlmsg_type = RTM_NEWROUTE ∨ msg.nlmsg_type = RTM_DELROUTE) then
        match routeOifName resolveIf msg.attrs with
        | some oifName =>
          match mapFind? st.InterfaceMap oifName with
          | some customTable =>
            some (msg.nlmsg_type, overwriteLast msg.attrs RTA_TABLE (u32le customTable))
          | none => none
        | none => none
      else if st.Mode = DynMHSOperatingMode.Reset ∧ table ≠ RT_TABLE_MAIN ∧
          mapHasValue st.InterfaceMap table = true then
        some (RTM_DELROUTE, msg.attrs)
      else none
    match update? with
    | none => some st
    | some (updateType, attrs2) =>
      let seq2 := nextSeq st.SeqNumber
      let clone : RouteMsg :=
        { msg with
          nlmsg_type := updateType,
          nlmsg_flags := if updateType = RTM_NEWROUTE then reqCreateFlags else reqAckFlags,
          nlmsg_seq := seq2,
          attrs := attrs2 }
      some { st with SeqNumber := seq2,
                     RequestQueue := st.RequestQueue ++ [OutMessage.routeMessage clone] }

/-! Rule events, `handleRuleEvent` (`dynmhs.cc` lines 434-505). -/

/-- Rule-change handler `handleRuleEvent`. The table identifier is read
from the last `FRA_TABLE` attribute; `assure(tablePtr != nullptr)`
aborts the process (`none`) when it is absent. In `Reset` mode a rule
whose table is one of the custom tables yields an `RTM_DELRULE` copy
with request-ack flags and a fresh sequence number. -/
def handleRuleEvent (st : DynState) (msg : RuleMsg) : Option DynState :=
  match lastAttrData msg.attrs FRA_TABLE with
  | none => none
  | some tb =>
    let table := le32 tb
    if st.Mode = DynMHSOperatingMode.Reset ∧ mapHasValue st.InterfaceMap table = true then
      let seq2 := nextSeq st.SeqNumber
      let copy : RuleMsg :=
        { msg with nlmsg_type := RTM_DELRULE, nlmsg_flags := reqAckFlags, nlmsg_seq := seq2 }
      some { st with SeqNumber := seq2,
                     RequestQueue := st.RequestQueue ++ [OutMessage.ruleMessage copy] }
    else some st

/-- Dump request builder `queueSimpleNetlinkRequest`: a generic request
of the given type with request-dump-ack flags, `AF_UNSPEC` family and a
fresh sequence number, pushed on the request queue. -/
def queueSimpleNetlinkRequest (ty : Nat) (st : DynState) : DynState :=
  let seq2 := nextSeq st.SeqNumber
  { st with
    SeqNumber := seq2,
    RequestQueue := st.RequestQueue ++
      [OutMessage.dumpRequest ⟨ty, NLM_F_REQUEST ||| NLM_F_DUMP ||| NLM_F_ACK, seq2, 0, AF_UNSPEC⟩] }

/-! Runs of the event-driven core. -/

/-- One occurrence the single-threaded core reacts to: a dispatched
inbound event, a dump request, or one of the two mode assignments
(`Mode = Operational` in `initialiseDynMHS`, `Mode = Reset` in
`cleanUpDynMHS`). -/
inductive Event where
  | addr : String → AddrMsg → Event
  | route : RouteMsg → Event
  | rule : RuleMsg → Event
  | dump : Nat → Event
  | setMode : DynMHSOperatingMode → Event

/-- Effect of one event on the process state; `none` is an `assure`
abort. -/
def stepEvent (resolveIf : Nat → Option String) (st : DynState) : Event → Option DynState
  | .addr ifName m => some (handleAddressEvent ifName st m)
  | .route m => handleRouteEvent resolveIf st m
  | .rule m => handleRuleEvent st m
  | .dump ty => some (queueSimpleNetlinkRequest ty st)
  | .setMode m => some { st with Mode := m }

/-- Sequential processing of a list of events. -/
def runEvents (resolveIf : Nat → Option String) : DynState → List Event → Option DynState
  | st, [] => some st
  | st, ev :: rest =>
    match stepEvent resolveIf st ev with
    | some st2 => runEvents resolveIf st2 rest
    | none => none

/-- Sequence numbers of the queued messages, front first. -/
def queueSeqs (st : DynState) : List Nat :=
  st.RequestQueue.map OutMessage.seq

/-! Queue drain, `sendQueuedRequests` (`dynmhs.cc` lines 533-554), and
the steady-state main loop (lines 971-1016). -/

/-- Drain of the request queue. `sendOk` models the success of the
`sendmsg` call for each message. A sent message is destroyed and
popped; a failed send returns `false` immediately, with the failed
message still at the front of the queue. -/
def sendQueuedRequests (sendOk : OutMessage → Bool) :
    List OutMessage → Bool × List OutMessage
  | [] => (true, [])
  | m :: rest =>
    if sendOk m then sendQueuedRequests sendOk rest
    else (false, m :: rest)

/-- What one `poll` wakeup of the main loop presented: readability of
the netlink socket, the success of the resulting non-blocking receive,
the messages the handlers enqueued during that receive, and readability
of the signal descriptor. -/
structure WakeupEvent where
  netlinkReadable : Bool
  recvOk : Bool
  enqueued : List OutMessage
  signalReadable : Bool

/-- How one iteration of the main loop ends. -/
inductive LoopOutcome where
  | continueLoop : List OutMessage → LoopOutcome
  | breakToCleanUp : List OutMessage → LoopOutcome
  | exitWithoutCleanUp : Nat → List OutMessage → LoopOutcome
deriving DecidableEq, Repr

/-- One iteration of main's steady-state loop: read netlink responses
(breaking out of the loop on a receive failure), then the signal
descriptor (breaking on shutdown signal), then drain the request
queue; a drain failure executes `return 1`, leaving `main` at once. -/
def mainLoopIteration (sendOk : OutMessage → Bool) (w : WakeupEvent)
    (queue : List OutMessage) : LoopOutcome :=
  let queue1 := if w.netlinkReadable then queue ++ w.enqueued else queue
  if w.netlinkReadable = true ∧ w.recvOk = false then LoopOutcome.breakToCleanUp queue1
  else if w.signalReadable = true then LoopOutcome.breakToCleanUp queue1
  else
    match sendQueuedRequests sendOk queue1 with
    | (true, rest) => LoopOutcome.continueLoop rest
    | (false, rest) => LoopOutcome.exitWithoutCleanUp 1 rest

/-- How the process left the main loop: its exit code and whether the
clean-up sequence `cleanUpDynMHS` (the `Reset` sweep after the loop)
was executed on the way out. -/
structure ProcessOutcome where
  exitCode : Nat
  ranCleanUp : Bool
deriving DecidableEq, Repr

/-- Run of the steady-state main loop over a trace of wakeups. A
`break` (signal, or receive failure) falls through to `cleanUpDynMHS`
and `main` returns 0; the send-failure path is `return 1`, which leaves
`main` without running `cleanUpDynMHS`. `none` means the loop is still
running when the trace ends. -/
def mainRun (sendOk : OutMessage → Bool) :
    List WakeupEvent → List OutMessage → Option ProcessOutcome
  | [], _ => none
  | w :: rest, queue =>
    match mainLoopIteration sendOk w queue with
    | LoopOutcome.continueLoop q2 => mainRun sendOk rest q2
    | LoopOutcome.breakToCleanUp _ => some ⟨0, true⟩
    | LoopOutcome.exitWithoutCleanUp code _ => some ⟨code, false⟩

/-! Configuration parsing of the `--network` mapping entries
(`dynmhs.cc` lines 883-906). -/

/-- Whitespace recognised by `isspace` in the C locale, skipped by
`atol`. -/
def isSpaceChar (c : Char) : Bool :=
  c = ' ' || c = '\t' || c = '\n' || c = '\x0b' || c = '\x0c' || c = '\r'

/-- Double-quote character. -/
def isQuoteChar (c : Char) : Bool := c = Char.ofNat 34

/-- Leading-digit accumulation of `atol`. -/
def atolLoop : List Char → Nat → Nat
  | [], acc => acc
  | c :: rest, acc =>
    if c.isDigit then atolLoop rest (acc * 10 + (c.toNat - 48)) else acc

/-- The C library `atol`: skip leading whitespace, an optional sign,
then the longest run of digits (zero when there is none). -/
def atol (cs : List Char) : Int :=
  match cs.dropWhile isSpaceChar with
  | '-' :: rest => -(atolLoop rest 0 : Int)
  | '+' :: rest => (atolLoop rest 0 : Int)
  | rest => (atolLoop rest 0 : Int)

/-- The `boost::trim_if(network, boost::is_any_of("\x22"))` call: strip
all leading and trailing double quotes. -/
def trimQuotes (cs : List Char) : List Char :=
  ((cs.dropWhile isQuoteChar).reverse.dropWhile isQuoteChar).reverse

/-- Split at the last colon (`network.rfind(':')` and the two
`substr` calls); `none` when the string has no colon. -/
def splitLastColon : List Char → Option (List Char × List Char)
  | [] => none
  | c :: rest =>
    match splitLastColon rest with
    | some (a, b) => some (c :: a, b)
    | none => if c = ':' then some ([], rest) else none

/-- Configuration errors; each prints a message and makes `main`
return exit code 1. -/
inductive ConfigError where
  | badNetwork : String → ConfigError
  | badTableID : String → ConfigError
  | noNetworks : ConfigError
deriving DecidableEq, Repr

/-- Parsing of one mapping entry: trim quotes, skip an empty entry,
split at the last colon, convert the table part with `atol` (the value
is stored into an `unsigned int`, hence reduced modulo `2 ^ 32`), and
validate it lies in `[1000, 30000)`. -/
def parseNetworkEntry (network : String) : Except ConfigError (Option (String × Nat)) :=
  let cs := trimQuotes network.data
  if cs = [] then Except.ok none
  else
    match splitLastColon cs with
    | none => Except.error (ConfigError.badNetwork network)
    | some (ifacePart, tablePart) =>
      let tableID := (atol tablePart % (4294967296 : Int)).toNat
      if tableID < 1000 ∨ 30000 ≤ tableID then
        Except.error (ConfigError.badTableID network)
      else
        Except.ok (some (String.mk ifacePart, tableID))

/-- Folding the mapping entries into the interface map with
`InterfaceMap.insert`. -/
def buildInterfaceMapAux (m : List (String × Nat)) :
    List String → Except ConfigError (List (String × Nat))
  | [] => Except.ok m
  | network :: rest =>
    match parseNetworkEntry network with
    | Except.error e => Except.error e
    | Except.ok none => buildInterfaceMapAux m rest
    | Except.ok (some (iface, tableID)) => buildInterfaceMapAux (mapInsert m iface tableID) rest

/-- Construction of `InterfaceMap` from all mapping entries, including
the final `InterfaceMap.size() < 1` check. -/
def buildInterfaceMap (networks : List String) : Except ConfigError (List (String × Nat)) :=
  match buildInterfaceMapAux [] networks with
  | Except.error e => Except.error e
  | Except.ok m => if m.length < 1 then Except.error ConfigError.noNetworks else Except.ok m

/-- Exit code contributed by configuration parsing: every
`ConfigError` path in `main` executes `return 1`. -/
def startupConfigExitCode (networks : List String) : Option Nat :=
  match buildInterfaceMap networks with
  | Except.error _ => some 1
  | Except.ok _ => none

/-! Concrete sample data used by witnesses and counterexamples. -/

/-- A wait-loop environment in which no message ever arrives and time
advances 2000 ms per iteration. -/
def quietEnv : WaitEnv := ⟨fun i => 2000 * i, fun _ => []⟩

/-- A process state in `Operational` mode with `eno1` mapped to custom
table 2000. -/
def opState : DynState :=
  ⟨DynMHSOperatingMode.Operational, 1000000000, [("eno1", 2000)], []⟩

/-- A queued `RTM_GETLINK` dump request. -/
def sampleDump : OutMessage :=
  OutMessage.dumpRequest ⟨RTM_GETLINK, NLM_F_REQUEST ||| NLM_F_DUMP ||| NLM_F_ACK, 1000000001, 0, AF_UNSPEC⟩

/-- An `RTM_NEWADDR` event for IPv4 address 10.0.0.5/24 on interface
index 3. -/
def sampleAddrMsg : AddrMsg :=
  { nlmsg_type := RTM_NEWADDR, nlmsg_flags := 0, nlmsg_seq := 55,
    ifa_family := AF_INET, ifa_prefixlen := 24, ifa_index := 3,
    attrs := [⟨IFA_ADDRESS, [10, 0, 0, 5]⟩] }

/-- An `RTM_NEWROUTE` event in the main table with a gateway and output
interface index 3. -/
def sampleRouteMsg : RouteMsg :=
  { nlmsg_type := RTM_NEWROUTE, nlmsg_flags := 0, nlmsg_seq := 88, nlmsg_pid := 4242,
    rtm_family := AF_INET, rtm_dst_len := 0, rtm_table := RT_TABLE_MAIN, rtm_scope := 0,
    attrs := [⟨RTA_GATEWAY, [10, 0, 0, 1]⟩, ⟨RTA_OIF, u32le 3⟩, ⟨RTA_TABLE, u32le RT_TABLE_MAIN⟩] }

/-- An `RTM_NEWROUTE` event whose table attribute is custom table 2000
rather than the main table. -/
def sampleRouteMsgCustom : RouteMsg :=
  { sampleRouteMsg with attrs := [⟨RTA_OIF, u32le 3⟩, ⟨RTA_TABLE, u32le 2000⟩] }

/-- An `RTM_NEWROUTE` event carrying no `RTA_TABLE` attribute; its
legacy header field `rtm_table` is the main table. -/
def routeMsgNoTableAttr : RouteMsg :=
  { nlmsg_type := RTM_NEWROUTE, nlmsg_flags := 0, nlmsg_seq := 77, nlmsg_pid := 0,
    rtm_family := AF_INET, rtm_dst_len := 24, rtm_table := RT_TABLE_MAIN, rtm_scope := 0,
    attrs := [⟨RTA_OIF, u32le 3⟩] }

/-- An `RTM_NEWRULE` event for custom table 2000. -/
def sampleRuleMsg : RuleMsg :=
  { nlmsg_type := RTM_NEWRULE, nlmsg_flags := 0, nlmsg_seq := 99, nlmsg_pid := 0,
    frh_family := AF_INET, frh_action := FR_ACT_TO_TBL, frh_table := RT_TABLE_UNSPEC,
    frh_src_len := 32,
    attrs := [⟨FRA_TABLE, u32le 2000⟩, ⟨FRA_PRIORITY, u32le 2000⟩] }

/-- Interface-name resolution where index 3 is `eno1`. -/
def sampleResolve : Nat → Option String := fun i => if i = 3 then some "eno1" else none

/-- The state after one `RTM_GETLINK` dump request from the initial
state with `eno1` mapped to table 2000. -/
def dumpRunState : DynState :=
  queueSimpleNetlinkRequest RTM_GETLINK (initialState [("eno1", 2000)])

/-! Supporting lemmas about the acknowledgement correlator. -/

theorem processAckCheck_preserves_awaited (st : AckState) (msg : InboundHeader) :
    (processAckCheck st msg).AwaitedSeqNumber = st.AwaitedSeqNumber := by
  unfold processAckCheck
  split
  · split <;> rfl
  · rfl

theorem processAckCheck_quiet (st : AckState) (msg : InboundHeader)
    (h : msg.nlmsg_seq ≠ st.AwaitedSeqNumber) :
    processAckCheck st msg = st := by
  unfold processAckCheck
  rw [if_neg]
  intro hc
  exact h hc.2

theorem receiveAckSweep_quiet (msgs : List InboundHeader) (st : AckState)
    (h : ∀ m ∈ msgs, m.nlmsg_seq ≠ st.AwaitedSeqNumber) :
    receiveAckSweep st msgs = st := by
  induction msgs with
  | nil => rfl
  | cons m rest ih =>
    have hm : processAckCheck st m = st :=
      processAckCheck_quiet st m (h m (List.mem_cons_self m rest))
    show receiveAckSweep (processAckCheck st m) rest = st
    rw [hm]
    exact ih (fun x hx => h x (List.mem_cons_of_mem m hx))

theorem waitForAckAux_quiet (env : WaitEnv) (timeout seqNumber : Nat)
    (hquiet : ∀ i, ∀ m ∈ env.deliveredAt i, m.nlmsg_seq ≠ seqNumber) :
    ∀ (fuel i : Nat) (st : AckState),
      st.WaitingForAcknowlegement = true → st.AwaitedSeqNumber = seqNumber →
      waitForAckAux env timeout fuel i st = none := by
  intro fuel
  induction fuel with
  | zero => intro i st _ _; rfl
  | succ n ih =>
    intro i st hw ha
    have hsweep : receiveAckSweep st (env.deliveredAt i) = st := by
      apply receiveAckSweep_quiet
      intro m hm
      rw [ha]
      exact hquiet i m hm
    show waitForAckAux env timeout (n + 1) i st = none
    unfold waitForAckAux
    rw [if_pos hw, hsweep]
    exact ih (i + 1) st hw ha

/-- C1: the claim says that a synchronous acknowledgement wait in which
no message with the awaited sequence number arrives terminates once the
5-second timeout elapses and returns failure. In the source the loop
`while(WaitingForAcknowlegement)` of `waitForAcknowledgement` has no
timeout exit: once the deadline passes the computed poll timeout is
clamped to 0 and the loop keeps polling. This theorem shows that under
an environment that never delivers the awaited sequence number the loop
is still running after any number of iterations — however far the
elapsed time is past the timeout — so the function never returns
failure and the timeout branch of `initialiseDynMHS` is unreachable. -/
theorem waitForAcknowledgement_never_times_out (env : WaitEnv)
    (timeout seqNumber : Nat) (lastError : Int) (fuel : Nat)
    (hquiet : ∀ i, ∀ m ∈ env.deliveredAt i, m.nlmsg_seq ≠ seqNumber) :
    waitForAcknowledgement env timeout seqNumber lastError fuel = none :=
  waitForAckAux_quiet env timeout seqNumber hquiet fuel 0 ⟨true, seqNumber, lastError⟩ rfl rfl

/-- Witness for C1: with a silent socket and the stock 5000 ms timeout,
after 100 iterations — 200000 ms of measured elapsed time, far past the
timeout — the wait loop is still running. -/
theorem waitForAcknowledgement_never_times_out_witness :
    NETLINK_TIMEOUT < quietEnv.elapsedAt 100 ∧
    waitForAcknowledgement quietEnv NETLINK_TIMEOUT 1000000001 0 100 = none :=
  ⟨by norm_num [quietEnv, NETLINK_TIMEOUT],
   waitForAcknowledgement_never_times_out quietEnv NETLINK_TIMEOUT 1000000001 0 100
     (fun i m hm => absurd hm (List.not_mem_nil m))⟩

/-- Counterexample for C2: the claim says a multipart-end (`NLMSG_DONE`)
message does not by itself satisfy a synchronous wait, the waiting flag
being cleared only by the `NLMSG_ERROR` acknowledgement. In the source
the correlation check clears the flag for any message bearing the
awaited sequence number: here an `NLMSG_DONE` with the awaited sequence
number 42 clears the waiting flag by itself. -/
theorem multipart_end_clears_wait_counterexample :
    (processAckCheck ⟨true, 42, 7⟩ ⟨NLMSG_DONE, 42, 20, 0⟩).WaitingForAcknowlegement = false ∧
    NLMSG_DONE ≠ NLMSG_ERROR := by
  constructor
  · rfl
  · decide

/-- C2 as amended: during a synchronous wait, any message bearing the
awaited sequence number — a multipart-end included — clears the waiting
flag; `LastError` records the carried error code when that message is
an `NLMSG_ERROR` of sufficient length, and 0 otherwise. -/
theorem awaited_seq_clears_wait (st : AckState) (msg : InboundHeader)
    (hw : st.WaitingForAcknowlegement = true)
    (hs : msg.nlmsg_seq = st.AwaitedSeqNumber) :
    (processAckCheck st msg).WaitingForAcknowlegement = false ∧
    (processAckCheck st msg).LastError =
      (if msg.nlmsg_type = NLMSG_ERROR ∧ NLMSG_LENGTH sizeof_nlmsgerr ≤ msg.nlmsg_len
       then msg.errorCode else 0) := by
  unfold processAckCheck
  rw [if_pos ⟨hw, hs⟩]
  split
  · exact ⟨rfl, rfl⟩
  · exact ⟨rfl, rfl⟩

/-- Witness for the amended C2, at a waiting correlator expecting
sequence number 42 and an `NLMSG_DONE` message bearing it. -/
theorem awaited_seq_clears_wait_witness :
    (processAckCheck ⟨true, 42, 7⟩ ⟨NLMSG_DONE, 42, 36, -17⟩).WaitingForAcknowlegement = false ∧
    (processAckCheck ⟨true, 42, 7⟩ ⟨NLMSG_DONE, 42, 36, -17⟩).LastError =
      (if (⟨NLMSG_DONE, 42, 36, -17⟩ : InboundHeader).nlmsg_type = NLMSG_ERROR ∧
          NLMSG_LENGTH sizeof_nlmsgerr ≤ (⟨NLMSG_DONE, 42, 36, -17⟩ : InboundHeader).nlmsg_len
       then (⟨NLMSG_DONE, 42, 36, -17⟩ : InboundHeader).errorCode else 0) :=
  awaited_seq_clears_wait ⟨true, 42, 7⟩ ⟨NLMSG_DONE, 42, 36, -17⟩ rfl rfl

theorem sendQueuedRequests_failure_shape (sendOk : OutMessage → Bool) :
    ∀ (queue rest : List OutMessage),
      sendQueuedRequests sendOk queue = (false, rest) →
      ∃ m tail, rest = m :: tail ∧ sendOk m = false := by
  intro queue
  induction queue with
  | nil => intro rest h; simp [sendQueuedRequests] at h
  | cons m tail ih =>
    intro rest h
    by_cases hm : sendOk m = true
    · apply ih
      rw [← h]
      simp [sendQueuedRequests, hm]
    · have hm2 : sendOk m = false := by simpa using hm
      have hstep : sendQueuedRequests sendOk (m :: tail) = (false, m :: tail) := by
        simp [sendQueuedRequests, hm2]
      rw [hstep] at h
      injection h with h1 h2
      exact ⟨m, tail, h2.symm, hm2⟩

/-- Counterexample for C3: the claim says that after a fatal `sendmsg`
failure in the steady-state drain, shutdown (the `Reset` clean-up in
`cleanUpDynMHS`) still runs before the process terminates. In the
source the main loop executes `return 1` on a drain failure, leaving
`main` before the clean-up section: here a run whose only wakeup
suffers a send failure exits with code 1 and the clean-up did not
run. -/
theorem send_failure_skips_cleanup_counterexample :
    mainRun (fun _ => false) [⟨true, true, [sampleDump], false⟩] [] =
      some ⟨1, false⟩ := rfl

/-- C3 as amended: a `sendmsg` failure while draining the request queue
in the main loop is fatal — the drain aborts with the failed message
still owned by the queue, and the process terminates at once with exit
code 1 via `return 1`, without running the `Reset` clean-up in
`cleanUpDynMHS` (which runs only on the `break` paths). -/
theorem send_failure_fatal_without_cleanup (sendOk : OutMessage → Bool)
    (w : WakeupEvent) (ws : List WakeupEvent) (queue : List OutMessage)
    (hr : w.recvOk = true) (hs : w.signalReadable = false)
    (hfail : (sendQueuedRequests sendOk
        (if w.netlinkReadable then queue ++ w.enqueued else queue)).fst = false) :
    mainRun sendOk (w :: ws) queue = some ⟨1, false⟩ ∧
    ∃ m tail,
      sendQueuedRequests sendOk (if w.netlinkReadable then queue ++ w.enqueued else queue) =
        (false, m :: tail) ∧ sendOk m = false := by
  rcases hsq : sendQueuedRequests sendOk
      (if w.netlinkReadable then queue ++ w.enqueued else queue) with ⟨ok, rest⟩
  have hok : ok = false := by rw [hsq] at hfail; exact hfail
  subst hok
  have hshape := sendQueuedRequests_failure_shape sendOk _ rest hsq
  constructor
  · have hiter : mainLoopIteration sendOk w queue = LoopOutcome.exitWithoutCleanUp 1 rest := by
      simp [mainLoopIteration, hr, hs, hsq]
    show mainRun sendOk (w :: ws) queue = some ⟨1, false⟩
    unfold mainRun
    rw [hiter]
  · obtain ⟨m, tail, htail, hm⟩ := hshape
    refine ⟨m, tail, ?_, hm⟩
    rw [htail]

/-- Witness for the amended C3, at a one-wakeup trace whose drain
fails on the queued dump request. -/
theorem send_failure_fatal_without_cleanup_witness :
    mainRun (fun _ => false) [⟨true, true, [sampleDump], false⟩] [] = some ⟨1, false⟩ ∧
    ∃ m tail,
      sendQueuedRequests (fun _ => false)
        (if (⟨true, true, [sampleDump], false⟩ : WakeupEvent).netlinkReadable
         then [] ++ (⟨true, true, [sampleDump], false⟩ : WakeupEvent).enqueued
         else []) = (false, m :: tail) ∧ (fun _ => false) m = false :=
  send_failure_fatal_without_cleanup (fun _ => false)
    ⟨true, true, [sampleDump], false⟩ [] [] rfl rfl rfl

/-- Counterexample for C4: the claim says the route table identifier is
extracted preferring the `RTA_TABLE` attribute over the header's legacy
8-bit table field, so a route message without `RTA_TABLE` is still
handled via the header field and `handleRouteEvent`'s internal check
never aborts. In the source the header field `rtm_table` is never read
and there is no fallback: this main-table route message without an
`RTA_TABLE` attribute fails `assure(tablePtr != nullptr)`, which aborts
the process (`none`), although its header field holds the main table. -/
theorem route_without_table_attribute_aborts_counterexample :
    routeMsgNoTableAttr.rtm_table = RT_TABLE_MAIN ∧
    handleRouteEvent sampleResolve opState routeMsgNoTableAttr = none :=
  ⟨rfl, rfl⟩

/-- C4 as amended: the table identifier of a route event is taken
solely from the `RTA_TABLE` attribute — the header's legacy 8-bit table
field is never consulted — and a route message carrying no `RTA_TABLE`
attribute fails the `assure(tablePtr != nullptr)` check in
`handleRouteEvent`, aborting the process. -/
theorem route_table_only_from_attribute (resolveIf : Nat → Option String)
    (st : DynState) (msg : RouteMsg)
    (h : lastAttrData msg.attrs RTA_TABLE = none) :
    handleRouteEvent resolveIf st msg = none := by
  unfold handleRouteEvent
  rw [h]

/-- Witness for the amended C4, at a concrete route message with no
`RTA_TABLE` attribute and an unrelated name-resolution environment. -/
theorem route_table_only_from_attribute_witness :
    lastAttrData routeMsgNoTableAttr.attrs RTA_TABLE = none ∧
    handleRouteEvent (fun _ => none) opState routeMsgNoTableAttr = none :=
  ⟨rfl, route_table_only_from_attribute (fun _ => none) opState routeMsgNoTableAttr rfl⟩

/-- C5: in `Operational` mode, an address event whose parsed address is
present and not IPv6 link-local, on an interface mapped to custom table
`T`, enqueues exactly one rule request: `RTM_NEWRULE` with
request-create-exclusive-ack flags for `RTM_NEWADDR` and `RTM_DELRULE`
with request-ack flags otherwise, carrying the address family,
lookup-table action, `FRA_SRC` = the address with full prefix length
(32 for IPv4, 128 otherwise), `FRA_PRIORITY` = `T` and `FRA_TABLE` =
`T`; and when the mode is not `Operational`, the address is IPv6
link-local, or the interface is unmapped, the handler enqueues
nothing and leaves the state unchanged. -/
theorem address_event_rule_mutation (st st2 : DynState) (ifName ifName2 : String)
    (msg msg2 : AddrMsg) (addr : List Nat) (T : Nat)
    (hmode : st.Mode = DynMHSOperatingMode.Operational)
    (haddr : (parseAddrAttrs msg.ifa_family msg.attrs).addressPtr = some addr)
    (hll : (parseAddrAttrs msg.ifa_family msg.attrs).isLinkLocal = false)
    (hmap : mapFind? st.InterfaceMap ifName = some T) :
    handleAddressEvent ifName st msg =
      { st with
        SeqNumber := nextSeq st.SeqNumber,
        RequestQueue := st.RequestQueue ++ [OutMessage.ruleMessage
          { nlmsg_type := if msg.nlmsg_type = RTM_NEWADDR then RTM_NEWRULE else RTM_DELRULE,
            nlmsg_flags := if msg.nlmsg_type = RTM_NEWADDR then reqCreateFlags else reqAckFlags,
            nlmsg_seq := nextSeq st.SeqNumber,
            nlmsg_pid := 0,
            frh_family := msg.ifa_family,
            frh_action := FR_ACT_TO_TBL,
            frh_table := RT_TABLE_UNSPEC,
            frh_src_len := if msg.ifa_family = AF_INET then 32 else 128,
            attrs := [⟨FRA_SRC, if msg.ifa_family = AF_INET then addr.take 4 else addr.take 16⟩,
                      ⟨FRA_PRIORITY, u32le T⟩,
                      ⟨FRA_TABLE, u32le T⟩] }] } ∧
    ((st2.Mode ≠ DynMHSOperatingMode.Operational ∨
      (parseAddrAttrs msg2.ifa_family msg2.attrs).isLinkLocal = true ∨
      mapFind? st2.InterfaceMap ifName2 = none) →
        handleAddressEvent ifName2 st2 msg2 = st2) := by
  constructor
  · simp only [handleAddressEvent, haddr, hll, hmode, eq_self_iff_true, and_self, if_true]
    rw [hmap]
  · intro h
    have hcases : (parseAddrAttrs msg2.ifa_family msg2.attrs).addressPtr = none ∨
        ∃ a, (parseAddrAttrs msg2.ifa_family msg2.attrs).addressPtr = some a := by
      rcases (parseAddrAttrs msg2.ifa_family msg2.attrs).addressPtr with _ | a
      · exact Or.inl rfl
      · exact Or.inr ⟨a, rfl⟩
    rcases hcases with hp | ⟨a, hp⟩
    · simp only [handleAddressEvent, hp]
    · simp only [handleAddressEvent, hp]
      rcases h with hm | hl | hf
      · rw [if_neg (fun hc => hm hc.1)]
      · rw [if_neg]
        intro hc
        rw [hl] at hc
        simp at hc
      · by_cases hmode2 : st2.Mode = DynMHSOperatingMode.Operational ∧
            (parseAddrAttrs msg2.ifa_family msg2.attrs).isLinkLocal = false
        · rw [if_pos hmode2, hf]
        · rw [if_neg hmode2]

/-- Witness for C5: an `RTM_NEWADDR` event for 10.0.0.5/24 on `eno1`,
mapped to table 2000, in `Operational` mode. -/
theorem address_event_rule_mutation_witness :
    handleAddressEvent "eno1" opState sampleAddrMsg =
      { opState with
        SeqNumber := nextSeq opState.SeqNumber,
        RequestQueue := opState.RequestQueue ++ [OutMessage.ruleMessage
          { nlmsg_type := if sampleAddrMsg.nlmsg_type = RTM_NEWADDR then RTM_NEWRULE else RTM_DELRULE,
            nlmsg_flags := if sampleAddrMsg.nlmsg_type = RTM_NEWADDR then reqCreateFlags else reqAckFlags,
            nlmsg_seq := nextSeq opState.SeqNumber,
            nlmsg_pid := 0,
            frh_family := sampleAddrMsg.ifa_family,
            frh_action := FR_ACT_TO_TBL,
            frh_table := RT_TABLE_UNSPEC,
            frh_src_len := if sampleAddrMsg.ifa_family = AF_INET then 32 else 128,
            attrs := [⟨FRA_SRC, if sampleAddrMsg.ifa_family = AF_INET
                        then [10, 0, 0, 5].take 4 else [10, 0, 0, 5].take 16⟩,
                      ⟨FRA_PRIORITY, u32le 2000⟩,
                      ⟨FRA_TABLE, u32le 2000⟩] }] } ∧
    ((opState.Mode ≠ DynMHSOperatingMode.Operational ∨
      (parseAddrAttrs sampleAddrMsg.ifa_family sampleAddrMsg.attrs).isLinkLocal = true ∨
      mapFind? opState.InterfaceMap "missing0" = none) →
        handleAddressEvent "missing0" opState sampleAddrMsg = opState) :=
  address_event_rule_mutation opState opState "eno1" "missing0"
    sampleAddrMsg sampleAddrMsg [10, 0, 0, 5] 2000 rfl rfl rfl rfl

theorem le32_u32le (v : Nat) : le32 (u32le v) = v % 4294967296 := by
  simp only [le32, u32le, List.take, List.foldr]
  omega

theorem lastAttrData_overwriteLast (ty : Nat) (v : List Nat) :
    ∀ (attrs : List RAttr) (d : List Nat), lastAttrData attrs ty = some d →
      lastAttrData (overwriteLast attrs ty v) ty = some v := by
  intro attrs
  induction attrs with
  | nil => intro d h; cases h
  | cons rta rest ih =>
    intro d h
    rcases hrest : lastAttrData rest ty with _ | d2
    · have hty : rta.rta_type = ty := by
        simp only [lastAttrData, hrest] at h
        by_cases ht : rta.rta_type = ty
        · exact ht
        · rw [if_neg ht] at h; exact Option.noConfusion h
      simp only [overwriteLast, hrest]
      rw [if_pos hty]
      simp only [lastAttrData, hrest]
      rw [if_pos (show ({ rta with rta_data := v } : RAttr).rta_type = ty from hty)]
    · simp only [overwriteLast, hrest]
      simp only [lastAttrData]
      rw [ih d2 hrest]

/-- C6: in `Operational` mode, a route event whose last `RTA_TABLE`
attribute reads the main table and whose output-interface name is
mapped to custom table `T` enqueues exactly one message that is a copy
of the original in which only the table attribute (overwritten to `T`),
the type (`RTM_NEWROUTE` on add, `RTM_DELROUTE` on delete, the event's
own type), the flags (request-create-exclusive-ack on add, request-ack
on delete) and the sequence number (freshly allocated) differ; the
overwritten table attribute reads back as `T`. A route event whose
table attribute is not the main table produces no mutation in
`Operational` mode. -/
theorem route_event_clone_mutation (resolveIf resolveIf2 : Nat → Option String)
    (st st2 : DynState) (msg msg2 : RouteMsg) (tb tb2 : List Nat) (oif : String) (T : Nat)
    (hmode : st.Mode = DynMHSOperatingMode.Operational)
    (htab : lastAttrData msg.attrs RTA_TABLE = some tb)
    (hmain : le32 tb = RT_TABLE_MAIN)
    (htype : msg.nlmsg_type = RTM_NEWROUTE ∨ msg.nlmsg_type = RTM_DELROUTE)
    (hoif : routeOifName resolveIf msg.attrs = some oif)
    (hmap : mapFind? st.InterfaceMap oif = some T)
    (hT : T < 4294967296)
    (hmode2 : st2.Mode = DynMHSOperatingMode.Operational)
    (htab2 : lastAttrData msg2.attrs RTA_TABLE = some tb2)
    (hnotmain : le32 tb2 ≠ RT_TABLE_MAIN) :
    handleRouteEvent resolveIf st msg =
      some { st with
        SeqNumber := nextSeq st.SeqNumber,
        RequestQueue := st.RequestQueue ++ [OutMessage.routeMessage
          { msg with
            nlmsg_type := msg.nlmsg_type,
            nlmsg_flags := if msg.nlmsg_type = RTM_NEWROUTE then reqCreateFlags else reqAckFlags,
            nlmsg_seq := nextSeq st.SeqNumber,
            attrs := overwriteLast msg.attrs RTA_TABLE (u32le T) }] } ∧
    (lastAttrData (overwriteLast msg.attrs RTA_TABLE (u32le T)) RTA_TABLE).map le32 =
      some T ∧
    handleRouteEvent resolveIf2 st2 msg2 = some st2 := by
  refine ⟨?_, ?_, ?_⟩
  · simp only [handleRouteEvent, htab, hmode, hmain, hoif, hmap, htype,
      eq_self_iff_true, true_and, and_self, and_true, if_true, or_self]
  · rw [lastAttrData_overwriteLast RTA_TABLE (u32le T) msg.attrs tb htab]
    show some (le32 (u32le T)) = some T
    rw [le32_u32le, Nat.mod_eq_of_lt hT]
  · simp only [handleRouteEvent, htab2]
    rw [if_neg (fun hc => hnotmain hc.2.1)]
    rw [if_neg (fun hc => by rw [hmode2] at hc; exact absurd hc.1 (by decide))]

/-- Witness for C6: a main-table default-route event on `eno1` (mapped
to table 2000) is cloned with its table attribute overwritten to 2000,
while the same event already bearing table attribute 2000 produces no
mutation. -/
theorem route_event_clone_mutation_witness :
    handleRouteEvent sampleResolve opState sampleRouteMsg =
      some { opState with
        SeqNumber := nextSeq opState.SeqNumber,
        RequestQueue := opState.RequestQueue ++ [OutMessage.routeMessage
          { sampleRouteMsg with
            nlmsg_type := sampleRouteMsg.nlmsg_type,
            nlmsg_flags := if sampleRouteMsg.nlmsg_type = RTM_NEWROUTE
              then reqCreateFlags else reqAckFlags,
            nlmsg_seq := nextSeq opState.SeqNumber,
            attrs := overwriteLast sampleRouteMsg.attrs RTA_TABLE (u32le 2000) }] } ∧
    (lastAttrData (overwriteLast sampleRouteMsg.attrs RTA_TABLE (u32le 2000)) RTA_TABLE).map le32 =
      some 2000 ∧
    handleRouteEvent sampleResolve opState sampleRouteMsgCustom = some opState :=
  route_event_clone_mutation sampleResolve sampleResolve opState opState
    sampleRouteMsg sampleRouteMsgCustom (u32le RT_TABLE_MAIN) (u32le 2000) "eno1" 2000
    rfl rfl rfl (Or.inl rfl) rfl rfl (by decide) rfl rfl (by decide)

theorem handleAddressEvent_seq_queue (ifName : String) (st : DynState) (msg : AddrMsg)
    (st2 : DynState) (h : handleAddressEvent ifName st msg = st2) :
    (st2.SeqNumber = st.SeqNumber ∧ st2.RequestQueue = st.RequestQueue) ∨
    (st2.SeqNumber = nextSeq st.SeqNumber ∧
     ∃ m, st2.RequestQueue = st.RequestQueue ++ [m] ∧
       OutMessage.seq m = nextSeq st.SeqNumber) := by
  simp only [handleAddressEvent] at h
  split at h
  · subst h; left; exact ⟨rfl, rfl⟩
  · split at h
    · split at h
      · subst h; left; exact ⟨rfl, rfl⟩
      · subst h; right; exact ⟨rfl, _, rfl, rfl⟩
    · subst h; left; exact ⟨rfl, rfl⟩

theorem handleRouteEvent_seq_queue (resolveIf : Nat → Option String) (st : DynState)
    (msg : RouteMsg) (st2 : DynState) (h : handleRouteEvent resolveIf st msg = some st2) :
    (st2.SeqNumber = st.SeqNumber ∧ st2.RequestQueue = st.RequestQueue) ∨
    (st2.SeqNumber = nextSeq st.SeqNumber ∧
     ∃ m, st2.RequestQueue = st.RequestQueue ++ [m] ∧
       OutMessage.seq m = nextSeq st.SeqNumber) := by
  simp only [handleRouteEvent] at h
  split at h
  · exact Option.noConfusion h
  · split at h
    · injection h with h2
      subst h2
      left; exact ⟨rfl, rfl⟩
    · injection h with h2
      subst h2
      right; exact ⟨rfl, _, rfl, rfl⟩

theorem handleRuleEvent_seq_queue (st : DynState) (msg : RuleMsg) (st2 : DynState)
    (h : handleRuleEvent st msg = some st2) :
    (st2.SeqNumber = st.SeqNumber ∧ st2.RequestQueue = st.RequestQueue) ∨
    (st2.SeqNumber = nextSeq st.SeqNumber ∧
     ∃ m, st2.RequestQueue = st.RequestQueue ++ [m] ∧
       OutMessage.seq m = nextSeq st.SeqNumber) := by
  simp only [handleRuleEvent] at h
  split at h
  · exact Option.noConfusion h
  · split at h
    · injection h with h2
      subst h2
      right; exact ⟨rfl, _, rfl, rfl⟩
    · injection h with h2
      subst h2
      left; exact ⟨rfl, rfl⟩

theorem stepEvent_seq_queue (resolveIf : Nat → Option String) (st : DynState) (ev : Event)
    (st2 : DynState) (h : stepEvent resolveIf st ev = some st2) :
    (st2.SeqNumber = st.SeqNumber ∧ st2.RequestQueue = st.RequestQueue) ∨
    (st2.SeqNumber = nextSeq st.SeqNumber ∧
     ∃ m, st2.RequestQueue = st.RequestQueue ++ [m] ∧
       OutMessage.seq m = nextSeq st.SeqNumber) := by
  cases ev with
  | addr ifName m =>
    simp only [stepEvent] at h
    injection h with h2
    exact handleAddressEvent_seq_queue ifName st m st2 h2
  | route m =>
    simp only [stepEvent] at h
    exact handleRouteEvent_seq_queue resolveIf st m st2 h
  | rule m =>
    simp only [stepEvent] at h
    exact handleRuleEvent_seq_queue st m st2 h
  | dump ty =>
    simp only [stepEvent] at h
    injection h with h2
    subst h2
    right; exact ⟨rfl, _, rfl, rfl⟩
  | setMode m =>
    simp only [stepEvent] at h
    injection h with h2
    subst h2
    left; exact ⟨rfl, rfl⟩

theorem runEvents_inv (resolveIf : Nat → Option String) :
    ∀ (events : List Event) (st st2 : DynState),
      runEvents resolveIf st events = some st2 →
      st.SeqNumber + events.length < 4294967296 →
      1000000000 ≤ st.SeqNumber →
      List.Chain' (· < ·) (queueSeqs st) →
      (∀ s ∈ queueSeqs st, 1000000000 < s ∧ s ≤ st.SeqNumber) →
      st2.SeqNumber ≤ st.SeqNumber + events.length ∧
      1000000000 ≤ st2.SeqNumber ∧
      List.Chain' (· < ·) (queueSeqs st2) ∧
      (∀ s ∈ queueSeqs st2, 1000000000 < s ∧ s ≤ st2.SeqNumber) := by
  intro events
  induction events with
  | nil =>
    intro st st2 h _ h10 hch hbound
    simp only [runEvents] at h
    injection h with h2
    subst h2
    exact ⟨Nat.le_add_right _ _, h10, hch, hbound⟩
  | cons ev rest ih =>
    intro st st2 h hlt h10 hch hbound
    simp only [List.length_cons] at hlt ⊢
    simp only [runEvents] at h
    split at h
    · rename_i stA hstep
      rcases stepEvent_seq_queue resolveIf st ev stA hstep with ⟨hs, hq⟩ | ⟨hs, m, hq, hmseq⟩
      · have hqs : queueSeqs stA = queueSeqs st := by
          unfold queueSeqs
          rw [hq]
        have hrec := ih stA st2 h
          (by rw [hs]; omega)
          (by rw [hs]; exact h10)
          (by rw [hqs]; exact hch)
          (by rw [hqs, hs]; exact hbound)
        refine ⟨?_, hrec.2.1, hrec.2.2.1, hrec.2.2.2⟩
        have := hrec.1
        rw [hs] at this
        omega
      · have hnext : nextSeq st.SeqNumber = st.SeqNumber + 1 := by
          unfold nextSeq
          omega
        have hqs : queueSeqs stA = queueSeqs st ++ [st.SeqNumber + 1] := by
          unfold queueSeqs
          rw [hq]
          simp [hmseq, hnext]
        have hchA : List.Chain' (· < ·) (queueSeqs stA) := by
          rw [hqs]
          rw [List.chain'_append]
          refine ⟨hch, List.chain'_singleton _, ?_⟩
          intro x hx y hy
          simp only [List.head?_cons, Option.mem_def, Option.some.injEq] at hy
          subst hy
          have hxmem : x ∈ queueSeqs st := List.mem_of_mem_getLast? hx
          have := (hbound x hxmem).2
          omega
        have hboundA : ∀ s ∈ queueSeqs stA, 1000000000 < s ∧ s ≤ stA.SeqNumber := by
          intro s hsm
          rw [hqs] at hsm
          rw [hs, hnext]
          rcases List.mem_append.mp hsm with hsm | hsm
          · have := hbound s hsm
            omega
          · simp only [List.mem_singleton] at hsm
            subst hsm
            omega
        have hrec := ih stA st2 h
          (by rw [hs, hnext]; omega)
          (by rw [hs, hnext]; omega)
          hchA hboundA
        refine ⟨?_, hrec.2.1, hrec.2.2.1, hrec.2.2.2⟩
        have := hrec.1
        rw [hs, hnext] at this
        omega
    · exact Option.noConfusion h

/-- C7: the request-identifier counter starts at 1,000,000,000 and is
pre-incremented for each outbound message built by any of the builders
(rule request, route clone, rule deletion, dump request), so for every
run of the event core whose length cannot wrap the 32-bit counter the
enqueued messages carry pairwise-fresh identifiers forming a strictly
increasing sequence, all above the initial value. -/
theorem seq_numbers_strictly_increasing (resolveIf : Nat → Option String)
    (ifmap : List (String × Nat)) (events : List Event) (st2 : DynState)
    (h : runEvents resolveIf (initialState ifmap) events = some st2)
    (hlen : events.length ≤ 3294967295) :
    (initialState ifmap).SeqNumber = 1000000000 ∧
    List.Chain' (· < ·) (queueSeqs st2) ∧
    (∀ s ∈ queueSeqs st2, 1000000000 < s ∧ s ≤ st2.SeqNumber) := by
  have hinv := runEvents_inv resolveIf events (initialState ifmap) st2 h
    (by simp only [initialState]; omega)
    (Nat.le_refl 1000000000)
    (by simp [initialState, queueSeqs])
    (by simp [initialState, queueSeqs])
  exact ⟨rfl, hinv.2.2.1, hinv.2.2.2⟩

/-- Witness for C7: a one-event run issuing an `RTM_GETLINK` dump from
the initial state. -/
theorem seq_numbers_strictly_increasing_witness :
    (initialState [("eno1", 2000)]).SeqNumber = 1000000000 ∧
    List.Chain' (· < ·) (queueSeqs dumpRunState) ∧
    (∀ s ∈ queueSeqs dumpRunState, 1000000000 < s ∧ s ≤ dumpRunState.SeqNumber) :=
  seq_numbers_strictly_increasing (fun _ => none) [("eno1", 2000)]
    [Event.dump RTM_GETLINK] dumpRunState rfl (by decide)

/-- C8: no mutation is enqueued by any event handler while the mode is
`Undefined`: the address handler requires `Operational`, the route
handler `Operational` or `Reset`, and the rule handler `Reset`; under
`Undefined` each handler leaves the state unchanged (or aborts on a
missing table attribute, enqueuing nothing). -/
theorem no_mutation_while_undefined (resolveIf : Nat → Option String) (st : DynState)
    (ifName : String) (am : AddrMsg) (rm : RouteMsg) (um : RuleMsg)
    (h : st.Mode = DynMHSOperatingMode.Undefined) :
    handleAddressEvent ifName st am = st ∧
    (handleRouteEvent resolveIf st rm = none ∨ handleRouteEvent resolveIf st rm = some st) ∧
    (handleRuleEvent st um = none ∨ handleRuleEvent st um = some st) := by
  refine ⟨?_, ?_, ?_⟩
  · rcases hp : (parseAddrAttrs am.ifa_family am.attrs).addressPtr with _ | addr
    · simp only [handleAddressEvent, hp]
    · simp only [handleAddressEvent, hp]
      rw [if_neg (fun hc => absurd (h.symm.trans hc.1) (by decide))]
  · rcases htab : lastAttrData rm.attrs RTA_TABLE with _ | tb
    · left
      simp only [handleRouteEvent, htab]
    · right
      simp only [handleRouteEvent, htab]
      rw [if_neg (fun hc => absurd (h.symm.trans hc.1) (by decide)),
          if_neg (fun hc => absurd (h.symm.trans hc.1) (by decide))]
  · rcases htab : lastAttrData um.attrs FRA_TABLE with _ | tb
    · left
      simp only [handleRuleEvent, htab]
    · right
      simp only [handleRuleEvent, htab]
      rw [if_neg (fun hc => absurd (h.symm.trans hc.1) (by decide))]

/-- Witness for C8: the three handlers applied in the `Undefined`
initial state to concrete address, route and rule events. -/
theorem no_mutation_while_undefined_witness :
    handleAddressEvent "eno1" (initialState [("eno1", 2000)]) sampleAddrMsg =
      initialState [("eno1", 2000)] ∧
    (handleRouteEvent sampleResolve (initialState [("eno1", 2000)]) sampleRouteMsg = none ∨
     handleRouteEvent sampleResolve (initialState [("eno1", 2000)]) sampleRouteMsg =
       some (initialState [("eno1", 2000)])) ∧
    (handleRuleEvent (initialState [("eno1", 2000)]) sampleRuleMsg = none ∨
     handleRuleEvent (initialState [("eno1", 2000)]) sampleRuleMsg =
       some (initialState [("eno1", 2000)])) :=
  no_mutation_while_undefined sampleResolve (initialState [("eno1", 2000)]) "eno1"
    sampleAddrMsg sampleRouteMsg sampleRuleMsg rfl

/-- C9: a mapping entry is split at its last colon into interface name
and table id; ids 999 and 30000 are rejected (startup fails with exit
code 1) while 1000 and 29999 are accepted into the interface map, and
an entry with several colons is split at the last one. -/
theorem mapping_table_id_boundaries :
    buildInterfaceMap ["eno1:999"] = Except.error (ConfigError.badTableID "eno1:999") ∧
    buildInterfaceMap ["eno1:30000"] = Except.error (ConfigError.badTableID "eno1:30000") ∧
    startupConfigExitCode ["eno1:999"] = some 1 ∧
    startupConfigExitCode ["eno1:30000"] = some 1 ∧
    buildInterfaceMap ["eno1:1000"] = Except.ok [("eno1", 1000)] ∧
    buildInterfaceMap ["eno1:29999"] = Except.ok [("eno1", 29999)] ∧
    parseNetworkEntry "my:iface:2000" = Except.ok (some ("my:iface", 2000)) :=
  ⟨rfl, rfl, rfl, rfl, rfl, rfl, rfl⟩

/-- C10: `std::map::insert` does not overwrite: when two mapping
entries share an interface name the first parsed entry is kept, the
later duplicate is silently ignored, and startup does not fail. -/
theorem duplicate_interface_first_wins (m : List (String × Nat)) (k : String) (v w : Nat)
    (h : mapFind? m k = some w) :
    mapInsert m k v = m ∧ mapFind? (mapInsert m k v) k = some w ∧
    buildInterfaceMap ["eno1:1000", "eno1:2000"] = Except.ok [("eno1", 1000)] := by
  have hc : mapContains m k = true := by
    unfold mapContains
    rw [h]
    rfl
  have hins : mapInsert m k v = m := by
    simp [mapInsert, hc]
  exact ⟨hins, by rw [hins]; exact h, rfl⟩

/-- Witness for C10: inserting a duplicate `eno1` entry leaves the map
unchanged with the first table id. -/
theorem duplicate_interface_first_wins_witness :
    mapInsert [("eno1", 1000)] "eno1" 2000 = [("eno1", 1000)] ∧
    mapFind? (mapInsert [("eno1", 1000)] "eno1" 2000) "eno1" = some 1000 ∧
    buildInterfaceMap ["eno1:1000", "eno1:2000"] = Except.ok [("eno1", 1000)] :=
  duplicate_interface_first_wins [("eno1", 1000)] "eno1" 2000 1000 rfl

end DynMHS
